import Mathlib

/-!
Shallow embedding of the AIM mapping policy driver
(`gbpservice/neutron/services/grouppolicy/drivers/cisco/apic/aim_mapping.py`)
and proofs about its specification claims.

Each definition mirrors one function (or one contiguous slice) of the Python
source; the source line numbers are given in the doc comments.  External
collaborators (the AIM fabric store, the Neutron resource service, the name
mapper and the `apic_mapping_lib` helper module, none of which are under the
source tree) are modelled explicitly; such definitions carry a
`Modelled from the spec:` doc comment.
-/

namespace AimMapping

/-! ## Status aggregator (source lines 1362-1441) -/

/-- GBP-visible status constants (`gp_const.STATUS_ACTIVE` / `STATUS_BUILD` /
`STATUS_ERROR`). -/
inductive GbpStatus where
  | ACTIVE
  | BUILD
  | ERROR
deriving DecidableEq, Repr

/-- Observed convergence state of one AIM object, as returned by the fabric
store (`aim.get_status`): `none` when no status record exists, otherwise a
record that `is_error()`, `is_build()`, or neither (synced). -/
inductive AimSyncStatus where
  | error
  | build
  | synced
deriving DecidableEq, Repr

/-- `_map_aim_status` (source lines 1412-1426): missing status maps to BUILD,
then error, build, else ACTIVE.  The `session`/store lookup is abstracted into
the `get_status` function argument. -/
def map_aim_status (get_status : α → Option AimSyncStatus) (obj : α) : GbpStatus :=
  match get_status obj with
  | none => GbpStatus.BUILD
  | some AimSyncStatus.error => GbpStatus.ERROR
  | some AimSyncStatus.build => GbpStatus.BUILD
  | some AimSyncStatus.synced => GbpStatus.ACTIVE

/-- Loop body of `_merge_aim_status` (source lines 1428-1441): `merged_status`
starts as ACTIVE, any non-ACTIVE mapped status overwrites it, and the loop
breaks as soon as the merged status is ERROR. -/
def merge_aim_status_go (get_status : α → Option AimSyncStatus)
    (merged : GbpStatus) : List α → GbpStatus
  | [] => merged
  | obj :: rest =>
    let status := map_aim_status get_status obj
    let merged' := if status ≠ GbpStatus.ACTIVE then status else merged
    if merged' = GbpStatus.ERROR then merged'
    else merge_aim_status_go get_status merged' rest

/-- `_merge_aim_status` (source lines 1428-1441). -/
def merge_aim_status (get_status : α → Option AimSyncStatus) (objs : List α) :
    GbpStatus :=
  merge_aim_status_go get_status GbpStatus.ACTIVE objs

/-- Loop body of `_merge_gbp_status` (source lines 1362-1370): BUILD overwrites
the merged status, ERROR overwrites it and breaks. -/
def merge_gbp_status_go (merged : GbpStatus) : List GbpStatus → GbpStatus
  | [] => merged
  | st :: rest =>
    if st = GbpStatus.BUILD then merge_gbp_status_go GbpStatus.BUILD rest
    else if st = GbpStatus.ERROR then GbpStatus.ERROR
    else merge_gbp_status_go merged rest

/-- `_merge_gbp_status` (source lines 1362-1370), over the list of the
resources' `status` fields. -/
def merge_gbp_status (statuses : List GbpStatus) : GbpStatus :=
  merge_gbp_status_go GbpStatus.ACTIVE statuses

end AimMapping

namespace AimMapping

/-! ## Characterization lemmas for the status aggregator -/

theorem merge_aim_status_go_cons (get_status : α → Option AimSyncStatus)
    (m : GbpStatus) (hd : α) (tl : List α) :
    merge_aim_status_go get_status m (hd :: tl) =
      (if map_aim_status get_status hd = GbpStatus.ERROR then GbpStatus.ERROR
      else if map_aim_status get_status hd = GbpStatus.BUILD then
        merge_aim_status_go get_status GbpStatus.BUILD tl
      else if m = GbpStatus.ERROR then GbpStatus.ERROR
      else merge_aim_status_go get_status m tl) := by
  cases hs : map_aim_status get_status hd <;>
    simp only [merge_aim_status_go, hs] <;>
    split <;> simp_all

theorem merge_aim_status_go_spec (get_status : α → Option AimSyncStatus)
    (merged : GbpStatus) (h : merged ≠ GbpStatus.ERROR) (objs : List α) :
    merge_aim_status_go get_status merged objs =
      (if GbpStatus.ERROR ∈ objs.map (map_aim_status get_status) then
        GbpStatus.ERROR
      else if GbpStatus.BUILD ∈ objs.map (map_aim_status get_status)
          ∨ merged = GbpStatus.BUILD then
        GbpStatus.BUILD
      else GbpStatus.ACTIVE) := by
  induction objs generalizing merged with
  | nil =>
    cases merged with
    | ACTIVE => simp [merge_aim_status_go]
    | BUILD => simp [merge_aim_status_go]
    | ERROR => exact absurd rfl h
  | cons hd tl ih =>
    rw [merge_aim_status_go_cons]
    cases hst : map_aim_status get_status hd with
    | ACTIVE =>
      rw [if_neg (by simp), if_neg (by simp), if_neg h, ih merged h]
      simp [hst]
    | BUILD =>
      rw [if_neg (by simp), if_pos rfl, ih GbpStatus.BUILD (by simp)]
      simp [hst]
    | ERROR =>
      rw [if_pos rfl]
      simp [hst]

theorem merge_gbp_status_go_cons (m hd : GbpStatus) (tl : List GbpStatus) :
    merge_gbp_status_go m (hd :: tl) =
      (if hd = GbpStatus.BUILD then merge_gbp_status_go GbpStatus.BUILD tl
      else if hd = GbpStatus.ERROR then GbpStatus.ERROR
      else merge_gbp_status_go m tl) := by
  cases hd <;> simp [merge_gbp_status_go]

theorem merge_gbp_status_go_spec (merged : GbpStatus)
    (h : merged ≠ GbpStatus.ERROR) (statuses : List GbpStatus) :
    merge_gbp_status_go merged statuses =
      (if GbpStatus.ERROR ∈ statuses then GbpStatus.ERROR
      else if GbpStatus.BUILD ∈ statuses ∨ merged = GbpStatus.BUILD then
        GbpStatus.BUILD
      else GbpStatus.ACTIVE) := by
  induction statuses generalizing merged with
  | nil =>
    cases merged with
    | ACTIVE => simp [merge_gbp_status_go]
    | BUILD => simp [merge_gbp_status_go]
    | ERROR => exact absurd rfl h
  | cons hd tl ih =>
    rw [merge_gbp_status_go_cons]
    cases hd with
    | ACTIVE =>
      rw [if_neg (by simp), if_neg (by simp), ih merged h]
      simp
    | BUILD =>
      rw [if_pos rfl, ih GbpStatus.BUILD (by simp)]
      simp
    | ERROR =>
      rw [if_neg (by simp), if_pos rfl]
      simp

/-! ## Policy classifier update (source lines 632-644) -/

/-- Modelled from the spec: `alib.REVERSIBLE_PROTOCOLS` lives in
`apic_mapping_lib`, which is not under the source tree.  Per the spec these
are the connection-oriented protocols for which a reverse filter (return
path) is derived. -/
def REVERSIBLE_PROTOCOLS : List String := ["tcp", "udp", "icmp"]

/-- The original/current view of a policy classifier that
`update_policy_classifier_precommit` consults. -/
structure PolicyClassifier where
  direction : String
  protocol : String
deriving DecidableEq, Repr

/-- Outcome of `update_policy_classifier_precommit`:  `rejected` stands for
the bare `raise Exception` at source line 644. -/
inductive ClassifierUpdateResult where
  | ok
  | rejected
deriving DecidableEq, Repr

/-- `update_policy_classifier_precommit` (source lines 632-644): the update is
rejected when the direction changed or when the protocol moved in or out of
the reversible-protocol class. -/
def update_policy_classifier_precommit (original current : PolicyClassifier) :
    ClassifierUpdateResult :=
  if original.direction ≠ current.direction
      ∨ REVERSIBLE_PROTOCOLS.contains original.protocol
          ≠ REVERSIBLE_PROTOCOLS.contains current.protocol then
    ClassifierUpdateResult.rejected
  else ClassifierUpdateResult.ok

/-! ## Auto PTG identifiers (source lines 59-62, 1916-1923) -/

/-- `AUTO_PTG_PREFIX = 'auto'` (source line 61; constant renamed here). -/
def AUTO_PTG_PREF : String := "auto"

/-- `_get_auto_ptg_id` (source lines 1919-1920):
`AUTO_PTG_ID_PREFIX % hashlib.md5(l2p_id).hexdigest()` where
`AUTO_PTG_ID_PREFIX = 'auto%s'`.  The md5 hex digest is an external library
function, taken as a parameter. -/
def get_auto_ptg_id (md5hex : String → String) (l2p_id : String) : String :=
  AUTO_PTG_PREF ++ md5hex l2p_id

/-- `_is_auto_ptg` (source lines 1922-1923): `ptg['id'].startswith('auto')`,
applied here to the id field.  The startswith test is expressed on the
character lists of the two strings. -/
def is_auto_ptg (ptg_id : String) : Bool :=
  AUTO_PTG_PREF.data.isPrefixOf ptg_id.data

/-- Which branch `create_policy_target_group_precommit` takes at source lines
493-495: the auto-PTG branch only allocates the implicit subnet and
returns. -/
inductive PtgCreatePath where
  | autoPtgPath
  | regularPath
deriving DecidableEq, Repr

/-- Branch selection of `create_policy_target_group_precommit`
(source lines 493-495). -/
def create_policy_target_group_branch (ptg_id : String) : PtgCreatePath :=
  if is_auto_ptg ptg_id then PtgCreatePath.autoPtgPath
  else PtgCreatePath.regularPath

/-- Guard of `delete_policy_target_group_precommit` (source lines 571-573):
the delete is rejected with `AutoPTGDeleteNotSupported` exactly when the
PTG id equals `_get_auto_ptg_id` of its owning L2 policy. -/
def delete_policy_target_group_rejected (md5hex : String → String)
    (ptg_id l2p_id : String) : Bool :=
  ptg_id = get_auto_ptg_id md5hex l2p_id

/-- A policy-target-group DB row, as consulted by
`apic_epg_name_for_policy_target_group`. -/
structure PtgRow where
  id : String
  l2_policy_id : String
deriving DecidableEq, Repr

/-- `apic_epg_name_for_policy_target_group` (source lines 1931-1948): if the
row exists and is the auto PTG, the mapped EPG name is the backing network's
default EPG name (the network/dn lookup chain of lines 1936-1945 is abstracted
into the `default_epg_name` argument); otherwise it is the PTG id. -/
def apic_epg_name_for_policy_target_group (ptg_db : Option PtgRow)
    (ptg_id default_epg_name : String) : String :=
  match ptg_db with
  | some row =>
    if is_auto_ptg row.id then default_epg_name else ptg_id
  | none => ptg_id

/-! ## Policy target group update (source lines 538-566) -/

/-- The mutable part of an AIM EndpointGroup that
`update_policy_target_group_precommit` touches. -/
structure AimEPG where
  display_name : String
  provided_contract_names : List String
  consumed_contract_names : List String
deriving DecidableEq, Repr

/-- Python expression `list((set(existing) - set(old)) | set(new))` as used at
source lines 556-563.  Python sets are modelled as lists up to membership;
`dedup` stands for the set identification. -/
def py_set_diff_union (existing old new : List String) : List String :=
  ((existing.filter (fun n => !old.contains n)) ++ new).dedup

/-- `update_policy_target_group_precommit` (source lines 538-566).  The AIM
EPG fetched from the store is the `epg` argument (`none` when the store has no
such EPG, in which case nothing is written); `sanitized_name` is
`aim_display_name(context.current['name'])`.  The returned EPG is the object
persisted by `_add_contracts_for_epg` (called there with no extra contracts,
so it only writes the object back). -/
def update_policy_target_group_precommit (ptg_id sanitized_name : String)
    (old_provided old_consumed new_provided new_consumed : List String)
    (epg : Option AimEPG) : Option AimEPG :=
  match epg with
  | none => none
  | some epg =>
    let epg :=
      if ¬ is_auto_ptg ptg_id then { epg with display_name := sanitized_name }
      else epg
    some { epg with
      provided_contract_names :=
        py_set_diff_union epg.provided_contract_names old_provided
          new_provided,
      consumed_contract_names :=
        py_set_diff_union epg.consumed_contract_names old_consumed
          new_consumed }

theorem py_set_diff_union_mem (existing old new : List String) (n : String) :
    n ∈ py_set_diff_union existing old new ↔
      (n ∈ existing ∧ n ∉ old) ∨ n ∈ new := by
  simp [py_set_diff_union, List.mem_filter]

/-! ## Claim C1 -/

/-- C1 (counterexample): the claim states that the status merge over an empty
list yields BUILD, but both `_merge_aim_status` and `_merge_gbp_status` return
their initial `merged_status`, which is ACTIVE, when the list is empty. -/
theorem C1_empty_merge_counterexample :
    merge_aim_status (fun s : Option AimSyncStatus => s)
        ([] : List (Option AimSyncStatus)) = GbpStatus.ACTIVE
    ∧ merge_gbp_status [] = GbpStatus.ACTIVE
    ∧ GbpStatus.ACTIVE ≠ GbpStatus.BUILD :=
  ⟨rfl, rfl, by decide⟩

/-- C1 (amended): the merged status follows the priority
ERROR > BUILD > ACTIVE over the listed statuses — ERROR if any underlying
status is ERROR, else BUILD if any is BUILD, else ACTIVE — so the merge of
{ACTIVE, BUILD} is BUILD and of {ACTIVE, ERROR, BUILD} is ERROR; the merge of
the empty list is ACTIVE (not BUILD as originally claimed). -/
theorem C1_status_merge_priority (get_status : α → Option AimSyncStatus)
    (objs : List α) (statuses : List GbpStatus) :
    merge_aim_status get_status objs =
      (if GbpStatus.ERROR ∈ objs.map (map_aim_status get_status) then
        GbpStatus.ERROR
      else if GbpStatus.BUILD ∈ objs.map (map_aim_status get_status) then
        GbpStatus.BUILD
      else GbpStatus.ACTIVE)
    ∧ merge_gbp_status statuses =
      (if GbpStatus.ERROR ∈ statuses then GbpStatus.ERROR
      else if GbpStatus.BUILD ∈ statuses then GbpStatus.BUILD
      else GbpStatus.ACTIVE)
    ∧ merge_gbp_status [GbpStatus.ACTIVE, GbpStatus.BUILD] = GbpStatus.BUILD
    ∧ merge_gbp_status [GbpStatus.ACTIVE, GbpStatus.ERROR, GbpStatus.BUILD]
        = GbpStatus.ERROR
    ∧ merge_aim_status (fun s : Option AimSyncStatus => s)
        [some AimSyncStatus.synced, some AimSyncStatus.build]
        = GbpStatus.BUILD
    ∧ merge_aim_status (fun s : Option AimSyncStatus => s)
        [some AimSyncStatus.synced, some AimSyncStatus.error,
          some AimSyncStatus.build] = GbpStatus.ERROR
    ∧ merge_aim_status get_status ([] : List α) = GbpStatus.ACTIVE := by
  refine ⟨?_, ?_, by decide, by decide, by decide, by decide, rfl⟩
  · rw [merge_aim_status, merge_aim_status_go_spec _ _ (by simp)]
    simp
  · rw [merge_gbp_status, merge_gbp_status_go_spec _ (by simp)]
    simp

/-! ## Claim C4 -/

/-- C4 (counterexample): the claim states that any protocol change is
rejected, but a protocol change between two reversible protocols (tcp to udp
here) with an unchanged direction is accepted by
`update_policy_classifier_precommit`. -/
theorem C4_protocol_change_not_rejected :
    update_policy_classifier_precommit
        { direction := "bi", protocol := "tcp" }
        { direction := "bi", protocol := "udp" } = ClassifierUpdateResult.ok
    ∧ ("tcp" : String) ≠ "udp" := by
  refine ⟨by decide, by decide⟩

/-- C4 (amended): a classifier update is rejected exactly when the new
direction differs from the original or the new protocol's membership in the
reversible-protocol class differs from the original protocol's; a protocol
change inside the same reversibility class is applied. -/
theorem C4_classifier_update_rejection (original current : PolicyClassifier) :
    update_policy_classifier_precommit original current
        = ClassifierUpdateResult.rejected
      ↔ (original.direction ≠ current.direction
        ∨ ¬(original.protocol ∈ REVERSIBLE_PROTOCOLS
            ↔ current.protocol ∈ REVERSIBLE_PROTOCOLS)) := by
  rw [update_policy_classifier_precommit]
  split
  all_goals rename_i h
  · simp only [true_iff]
    rcases h with h | h
    · exact Or.inl h
    · refine Or.inr fun hiff => h ?_
      rcases Bool.eq_false_or_eq_true
          (REVERSIBLE_PROTOCOLS.contains original.protocol) with h1 | h1 <;>
        rcases Bool.eq_false_or_eq_true
            (REVERSIBLE_PROTOCOLS.contains current.protocol) with h2 | h2 <;>
        simp_all [List.elem_iff]
  · push_neg at h
    simp only [reduceCtorEq, false_iff, not_or, not_not]
    refine ⟨h.1, ?_⟩
    have hiff := iff_of_eq (congrArg (fun b => b = true) h.2)
    simpa [List.contains, List.elem_iff] using hiff

/-! ## Claim C6 -/

/-- C6 (confirmed): EndpointGroup.update sets each of the FabricGroup's
provided and consumed contract-name lists to (the names already on the
FabricGroup minus the names derived from the old policy references) union the
names derived from the new references; consequently every contract name that
was on the FabricGroup but not among the old derived names — in particular any
name added outside the policy model — is still present after the update. -/
theorem C6_update_ptg_contract_sets (ptg_id sanitized_name : String)
    (old_provided old_consumed new_provided new_consumed : List String)
    (epg out : AimEPG)
    (hout : update_policy_target_group_precommit ptg_id sanitized_name
        old_provided old_consumed new_provided new_consumed (some epg)
        = some out) :
    (∀ n, n ∈ out.provided_contract_names ↔
        ((n ∈ epg.provided_contract_names ∧ n ∉ old_provided)
          ∨ n ∈ new_provided))
    ∧ (∀ n, n ∈ out.consumed_contract_names ↔
        ((n ∈ epg.consumed_contract_names ∧ n ∉ old_consumed)
          ∨ n ∈ new_consumed))
    ∧ (∀ n, n ∈ epg.provided_contract_names → n ∉ old_provided →
        n ∈ out.provided_contract_names)
    ∧ (∀ n, n ∈ epg.consumed_contract_names → n ∉ old_consumed →
        n ∈ out.consumed_contract_names) := by
  rw [update_policy_target_group_precommit] at hout
  by_cases hauto : is_auto_ptg ptg_id <;>
    simp only [hauto, Bool.true_eq_false, not_false_iff, Bool.false_eq_true,
      not_true, if_pos, if_neg, ite_true, ite_false, not_false_eq_true,
      not_true_eq_false, Option.some.injEq] at hout <;>
  · subst hout
    refine ⟨fun n => ?_, fun n => ?_, fun n hm hn => ?_, fun n hm hn => ?_⟩ <;>
      simp_all [py_set_diff_union_mem]

/-- C6 witness: a manually added contract name survives a concrete update. -/
theorem C6_update_ptg_contract_sets_witness :
    "manual" ∈ (["manual", "newp"] : List String) :=
  (C6_update_ptg_contract_sets "ptg1" "nm" ["oldp"] ["oldc"] ["newp"]
      ["newc"]
      { display_name := "disp",
        provided_contract_names := ["manual", "oldp"],
        consumed_contract_names := ["manual2", "oldc"] }
      { display_name := "nm",
        provided_contract_names := ["manual", "newp"],
        consumed_contract_names := ["manual2", "newc"] }
      (by decide)).2.2.1 "manual" (by decide) (by decide)

/-! ## Claim C10 -/

/-- C10 (confirmed): auto-group detection is asymmetric.  For any
EndpointGroup whose id starts with the fixed short auto-group mark but does
not equal the exact value built from the owning BridgingDomain id's md5 hash:
`_is_auto_ptg` classifies it as the auto group, so the create path takes the
auto-PTG branch, the update path leaves its display name untouched, and the
fabric-name mapping returns the default EPG name — yet the delete-path guard,
which compares against the exact hashed value, does not reject its direct
deletion. -/
theorem C10_auto_ptg_detection_asymmetry (md5hex : String → String)
    (l2p_id ptg_id : String)
    (hpref : AUTO_PTG_PREF.data.isPrefixOf ptg_id.data = true)
    (hne : ptg_id ≠ get_auto_ptg_id md5hex l2p_id) :
    is_auto_ptg ptg_id = true
    ∧ create_policy_target_group_branch ptg_id = PtgCreatePath.autoPtgPath
    ∧ (∀ sanitized_name old_p old_c new_p new_c (epg out : AimEPG),
        update_policy_target_group_precommit ptg_id sanitized_name
            old_p old_c new_p new_c (some epg) = some out →
          out.display_name = epg.display_name)
    ∧ (∀ l2_ref default_epg_name,
        apic_epg_name_for_policy_target_group
            (some { id := ptg_id, l2_policy_id := l2_ref }) ptg_id
            default_epg_name = default_epg_name)
    ∧ delete_policy_target_group_rejected md5hex ptg_id l2p_id = false := by
  have hauto : is_auto_ptg ptg_id = true := hpref
  refine ⟨hauto, ?_, ?_, ?_, ?_⟩
  · simp [create_policy_target_group_branch, hauto]
  · intro sanitized_name old_p old_c new_p new_c epg out hout
    rw [update_policy_target_group_precommit] at hout
    simp only [hauto, Bool.true_eq_false, not_true_eq_false, if_neg,
      ite_false, Option.some.injEq, not_false_eq_true] at hout
    subst hout
    rfl
  · intro l2_ref default_epg_name
    simp [apic_epg_name_for_policy_target_group, hauto]
  · simp [delete_policy_target_group_rejected, hne]

/-- C10 witness: a concrete id starting with the auto mark but different from
the exact hashed auto id is not rejected by the delete-path guard. -/
theorem C10_auto_ptg_detection_asymmetry_witness :
    delete_policy_target_group_rejected (fun _ => "zz") "autoqq" "l2"
      = false :=
  (C10_auto_ptg_detection_asymmetry (fun _ => "zz") "l2" "autoqq"
    (by decide) (by decide)).2.2.2.2

/-! ## Contract engine: policy rules and contract subjects
(source lines 53-57, 646-679, 905-927, 967-986, 1038-1053) -/

/-- Fabric-object name produced by the Naming Mapper for a policy resource.
Modelled from the spec: the name mapper module is not under the source tree;
per the spec it is a deterministic, collision-resistant pure function of the
resource id and an optional prefix, represented here as that pair. -/
structure AimName where
  pref : String
  res_id : String
deriving DecidableEq, Repr

/-- Modelled from the spec: `alib.REVERSE_PREFIX`, the marker prepended to a
policy rule's mapped name for its reverse filter (`apic_mapping_lib` is not
under the source tree). -/
def REVERSE_PREF : String := "reverse-"

/-- The fields of a policy-rule row consulted by the contract engine. -/
structure PolicyRule where
  id : String
  policy_classifier_id : String
deriving DecidableEq, Repr

/-- `g_const.GP_DIRECTION_IN`. -/
def GP_DIRECTION_IN : String := "in"

/-- `g_const.GP_DIRECTION_OUT`. -/
def GP_DIRECTION_OUT : String := "out"

/-- `_aim_filter` (source lines 905-927): the Filter carries the mapped
policy-rule name, with the reverse marker when `reverse_prefix` is set. -/
def aim_filter (pr : PolicyRule) (rev : Bool) : AimName :=
  if rev then { pref := REVERSE_PREF, res_id := pr.id }
  else { pref := "", res_id := pr.id }

/-- `aim.get` on a Filter, over the set of Filter names present in the AIM
store: `none` when no such filter was ever created. -/
def aim_get_filter (store : List AimName) (n : AimName) : Option AimName :=
  if store.contains n then some n else none

/-- `_get_aim_filters` (source lines 967-980): fetch the Forward
(`reverse_prefix=False`) and Reverse (`reverse_prefix=True`) filters from the
AIM store (`FILTER_DIRECTIONS`, source line 55); either entry may be `none`
when the filter is absent. -/
def get_aim_filters (store : List AimName) (pr : PolicyRule) :
    List (Option AimName) :=
  [aim_get_filter store (aim_filter pr false),
    aim_get_filter store (aim_filter pr true)]

/-- `_get_aim_filter_names` (source lines 982-986):
`[f.name for f in aim_filters.values()]`.  The comprehension dereferences
`.name` on every fetched value with no guard, so when either filter is absent
(`None`) it raises `AttributeError`; the raise is modelled as `none`. -/
def get_aim_filter_names (store : List AimName) (pr : PolicyRule) :
    Option (List AimName) :=
  (get_aim_filters store pr).mapM id

/-- The three filter-name lists carried by one AIM ContractSubject
(`_aim_contract_subject`, source lines 1014-1036). -/
structure SubjectFilters where
  in_filters : List AimName
  out_filters : List AimName
  bi_filters : List AimName
deriving DecidableEq, Repr

/-- Loop of `_populate_aim_contract_subject` (source lines 1038-1053): for
every member rule, fetch its Forward/Reverse filter names and append them to
the in/out/bi list selected by the rule's classifier direction.  A missing
classifier (the plugin raises on unknown ids) or the `AttributeError` from
`_get_aim_filter_names` aborts the computation (`none`). -/
def populate_subject_go (store : List AimName)
    (getCls : String → Option PolicyClassifier) :
    List PolicyRule → SubjectFilters → Option SubjectFilters
  | [], acc => some acc
  | rule :: rest, acc =>
    match get_aim_filter_names store rule,
        getCls rule.policy_classifier_id with
    | some fs, some cls =>
      if cls.direction = GP_DIRECTION_IN then
        populate_subject_go store getCls rest
          { acc with in_filters := acc.in_filters ++ fs }
      else if cls.direction = GP_DIRECTION_OUT then
        populate_subject_go store getCls rest
          { acc with out_filters := acc.out_filters ++ fs }
      else
        populate_subject_go store getCls rest
          { acc with bi_filters := acc.bi_filters ++ fs }
    | _, _ => none

/-- `_populate_aim_contract_subject` (source lines 1038-1053): the three lists
written (with overwrite) onto the rule set's ContractSubject. -/
def populate_aim_contract_subject (store : List AimName)
    (getCls : String → Option PolicyClassifier) (rules : List PolicyRule) :
    Option SubjectFilters :=
  populate_subject_go store getCls rules
    { in_filters := [], out_filters := [], bi_filters := [] }

/-- Modelled from the spec: `alib.get_filter_entries_for_policy_rule` is not
under the source tree; per the spec the forward entry set is always derived
from the classifier, and a reverse entry set exactly when the protocol is
connection-oriented (reversible). -/
def rule_has_reverse (cls : PolicyClassifier) : Bool :=
  REVERSIBLE_PROTOCOLS.contains cls.protocol

/-- `create_policy_rule_precommit` (source lines 646-662): the Filters this
rule creates in the AIM store — the forward Filter always, plus the
reverse-named Filter when the classifier's protocol is reversible. -/
def create_policy_rule_filters (cls : PolicyClassifier) (pr : PolicyRule) :
    List AimName :=
  [aim_filter pr false]
    ++ (if rule_has_reverse cls then [aim_filter pr true] else [])

/-! ## Claim C2 -/

/-- C2 (code bug): for a rule set whose rules all have reversible protocols
the ContractSubject lists do carry N + k names bucketed by direction (second
conjunct: N = k = 1 gives the two bidirectional names), but for a rule set
containing a rule with a non-reversible protocol (here protocol 47) the claim
fails on the code: the AIM store, as populated by
`create_policy_rule_precommit`, holds no Reverse filter for that rule, and
`_get_aim_filter_names` dereferences the missing filter and raises
`AttributeError` (modelled as `none`) instead of contributing the rule's
single forward name, so no ContractSubject with N + k = 1 names is written. -/
theorem C2_contract_subject_population_crash :
    populate_aim_contract_subject
        (create_policy_rule_filters
          { direction := "bi", protocol := "47" }
          { id := "r1", policy_classifier_id := "c1" })
        (fun cid => if cid = "c1" then
          some { direction := "bi", protocol := "47" } else none)
        [{ id := "r1", policy_classifier_id := "c1" }] = none
    ∧ populate_aim_contract_subject
        (create_policy_rule_filters
          { direction := "bi", protocol := "tcp" }
          { id := "r1", policy_classifier_id := "c1" })
        (fun cid => if cid = "c1" then
          some { direction := "bi", protocol := "tcp" } else none)
        [{ id := "r1", policy_classifier_id := "c1" }]
        = some ⟨[], [], [⟨"", "r1"⟩, ⟨REVERSE_PREF, "r1"⟩]⟩ := by
  constructor <;> rfl

/-! ## L3 policy creation (source lines 185-291, 1705-1721) -/

/-- The fields of a Neutron subnet pool consulted by
`create_l3_policy_precommit`. -/
structure SubnetPool where
  id : String
  address_scope_id : Option String
  prefixes : List String
  default_prefixlen : Nat
deriving DecidableEq, Repr

/-- The fields of an external-segment row consulted by
`_check_l3policy_ext_segment`; `nat_type` is the backing external network's
`cisco_apic.NAT_TYPE` (`none` when the network is missing or has no type). -/
structure ExternalSegmentRow where
  id : String
  l3_policies : List String
  nat_type : Option String
deriving DecidableEq, Repr

/-- The l3-policy row/dict: `context.current` and the DB row `l3p_db` start
out identical and the precommit mutates the DB row, so one record models
both.  `external_segments` maps each referenced segment id to its allocation
list. -/
structure L3Policy where
  id : String
  ip_version : Nat
  address_scope_v4_id : Option String
  address_scope_v6_id : Option String
  subnetpools_v4 : List String
  subnetpools_v6 : List String
  ip_pool : Option String
  subnet_prefix_length : Option Nat
  routers : List String
  external_segments : List (String × List (Option String))
deriving DecidableEq, Repr

/-- Errors raised on the `create_l3_policy_precommit` path. -/
inductive L3PError where
  | SimultaneousV4V6AddressScopesNotSupportedOnAimDriver
  | SimultaneousV4V6SubnetpoolsNotSupportedOnAimDriver
  | InconsistentAddressScopeSubnetpool
  | NoAddressScopeForSubnetpool
  | L3PolicyMultipleRoutersNotSupported
  | OnlyOneAddressIsAllowedPerExternalSegment
  | OnlyOneL3PolicyIsAllowedPerExternalSegment
  | SubnetpoolNotFound
  | InvalidRouterAccess
deriving DecidableEq, Repr

/-- Ancillary-resource allocations / fabric writes performed by
`create_l3_policy_precommit`, in program order. -/
inductive AllocEvent where
  | implicit_address_scope
  | implicit_subnetpool
  | implicit_router
  | plug_routers_to_ext_segments
deriving DecidableEq, Repr

/-- Collaborator state consulted by `create_l3_policy_precommit`:
the subnet pools and external segments visible through the plugin, and the
outcome of `_reject_invalid_router_access` (a base-class validation helper
not under the source tree, abstracted to whether it raises). -/
structure L3PEnv where
  subnetpools : List SubnetPool
  ext_segments : List ExternalSegmentRow
  invalid_router_access : Bool
deriving Repr

/-- `_get_subnetpool` via the plugin (raises NotFound on a missing id,
modelled by the caller as `SubnetpoolNotFound`). -/
def get_subnetpool (env : L3PEnv) (sp_id : String) : Option SubnetPool :=
  env.subnetpools.find? (fun sp => sp.id = sp_id)

/-- `_check_l3policy_ext_segment` (source lines 1705-1721): each referenced
segment may carry at most one allocation, and a segment whose backing network
is not in distributed/edge NAT mode may not already serve another l3
policy. -/
def check_l3policy_ext_segment (env : L3PEnv) (l3p : L3Policy) :
    Option L3PError :=
  if l3p.external_segments.isEmpty then none
  else if l3p.external_segments.any (fun kv => kv.2.length > 1) then
    some L3PError.OnlyOneAddressIsAllowedPerExternalSegment
  else if (env.ext_segments.filter (fun es =>
        l3p.external_segments.any (fun kv => kv.1 = es.id))).any (fun es =>
      ¬ (es.nat_type = some "distributed" ∨ es.nat_type = some "edge")
        ∧ es.l3_policies.any (fun x => x ≠ l3p.id)) then
    some L3PError.OnlyOneL3PolicyIsAllowedPerExternalSegment
  else none

/-- Id given to an implicitly allocated address scope
(`_use_implicit_address_scope`, an implicit-resource helper external to this
file; the concrete uuid is irrelevant). -/
def implicit_scope_id : String := "implicit-address-scope"

/-- Address-scope key of `l3p` for the chosen family, i.e. `l3p_db[ascp]`. -/
def scope_of (l3p : L3Policy) (isV6 : Bool) : Option String :=
  if isV6 then l3p.address_scope_v6_id else l3p.address_scope_v4_id

/-- Write `l3p_db[ascp]` for the chosen family. -/
def set_scope (l3p : L3Policy) (isV6 : Bool) (v : Option String) : L3Policy :=
  if isV6 then { l3p with address_scope_v6_id := v }
  else { l3p with address_scope_v4_id := v }

/-- Address-family / address-scope determination of
`create_l3_policy_precommit` (source lines 200-223): pick v6 when a v6 scope
or v6 pools are given, else v4 when a v4 scope or v4 pools are given, else
key off the stored ip_version and allocate an implicit address scope when the
chosen scope field is unset.  Returns the updated row, whether the chosen
family is v6, and the allocations performed. -/
def resolve_address_scope (l3p : L3Policy) :
    L3Policy × Bool × List AllocEvent :=
  if l3p.address_scope_v6_id.isSome ∨ ¬ l3p.subnetpools_v6.isEmpty then
    ({ l3p with ip_version := 6 }, true, [])
  else if l3p.address_scope_v4_id.isSome ∨ ¬ l3p.subnetpools_v4.isEmpty then
    ({ l3p with ip_version := 4 }, false, [])
  else
    let isV6 := l3p.ip_version ≠ 4
    if (scope_of l3p isV6).isSome then (l3p, isV6, [])
    else (set_scope l3p isV6 (some implicit_scope_id), isV6,
      [AllocEvent.implicit_address_scope])

/-- The subnet-pool id list for the resolved family
(`subpool = 'subnetpools_v4' if l3p_db['ip_version'] == 4 else
'subnetpools_v6'`, source lines 224-225). -/
def selected_subnetpools (l3p : L3Policy) (isV6 : Bool) : List String :=
  if isV6 then l3p.subnetpools_v6 else l3p.subnetpools_v4

/-- Multi-pool loop of `create_l3_policy_precommit` (source lines 247-270):
every pool must have an address scope, the first pool's scope must agree with
an explicitly set l3p scope (otherwise it is adopted), and every later pool's
scope must equal the first's. -/
def multi_pool_go (env : L3PEnv) (isV6 : Bool) :
    List String → L3Policy → Option String → Except L3PError L3Policy
  | [], db, _ => Except.ok db
  | sp_id :: rest, db, sp_ascp =>
    match get_subnetpool env sp_id with
    | none => Except.error L3PError.SubnetpoolNotFound
    | some sp =>
      match sp.address_scope_id with
      | none => Except.error L3PError.NoAddressScopeForSubnetpool
      | some spscope =>
        match sp_ascp with
        | none =>
          match scope_of db isV6 with
          | some dbscope =>
            if spscope ≠ dbscope then
              Except.error L3PError.InconsistentAddressScopeSubnetpool
            else multi_pool_go env isV6 rest db (some spscope)
          | none =>
            multi_pool_go env isV6 rest
              (set_scope db isV6 (some spscope)) (some spscope)
        | some prev =>
          if prev ≠ spscope then
            Except.error L3PError.InconsistentAddressScopeSubnetpool
          else multi_pool_go env isV6 rest db (some prev)

/-- Subnet-pool resolution of `create_l3_policy_precommit`
(source lines 224-275): no pools given allocates an implicit one; exactly one
pool copies its single prefix (when it has exactly one) and its default
prefix length onto the row and adopts its scope; several pools run the
multi-pool loop and then unset `ip_pool` and `subnet_prefix_length`. -/
def resolve_subnetpools (env : L3PEnv) (isV6 : Bool) (db : L3Policy) :
    Except L3PError (L3Policy × List AllocEvent) :=
  match selected_subnetpools db isV6 with
  | [] => Except.ok (db, [AllocEvent.implicit_subnetpool])
  | [sp_id] =>
    match get_subnetpool env sp_id with
    | none => Except.error L3PError.SubnetpoolNotFound
    | some sp =>
      match sp.address_scope_id with
      | none => Except.error L3PError.NoAddressScopeForSubnetpool
      | some spscope =>
        let db := match sp.prefixes with
          | [p] => { db with ip_pool := some p }
          | _ => db
        let db := set_scope db isV6 (some spscope)
        Except.ok ({ db with
          subnet_prefix_length := some sp.default_prefixlen }, [])
  | sp_id :: sp_id2 :: rest =>
    match multi_pool_go env isV6 (sp_id :: sp_id2 :: rest) db none with
    | Except.error e => Except.error e
    | Except.ok db =>
      Except.ok ({ db with ip_pool := none, subnet_prefix_length := none },
        [])

/-- Router stage of `create_l3_policy_precommit` (source lines 277-291):
reject more than one router, run the router-access validation, allocate an
implicit router when none is given, and plug the routers into any referenced
external segments. -/
def create_l3_policy_routers_stage (env : L3PEnv) (db : L3Policy) :
    Option L3PError × L3Policy × List AllocEvent :=
  if db.routers.length > 1 then
    (some L3PError.L3PolicyMultipleRoutersNotSupported, db, [])
  else if env.invalid_router_access then
    (some L3PError.InvalidRouterAccess, db, [])
  else
    ((none : Option L3PError), db,
      (if db.routers.isEmpty then [AllocEvent.implicit_router] else [])
        ++ (if ¬ db.external_segments.isEmpty then
          [AllocEvent.plug_routers_to_ext_segments] else []))

/-- `create_l3_policy_precommit` (source lines 185-291).  Returns the error
raised (if any), the l3-policy row as mutated so far, and the
allocations/writes performed before the error; an error aborts the enclosing
transaction. -/
def create_l3_policy_precommit (env : L3PEnv) (l3p : L3Policy) :
    Option L3PError × L3Policy × List AllocEvent :=
  match check_l3policy_ext_segment env l3p with
  | some e => (some e, l3p, [])
  | none =>
    if l3p.address_scope_v4_id.isSome ∧ l3p.address_scope_v6_id.isSome then
      (some L3PError.SimultaneousV4V6AddressScopesNotSupportedOnAimDriver,
        l3p, [])
    else if (¬ l3p.subnetpools_v4.isEmpty) ∧ ¬ l3p.subnetpools_v6.isEmpty then
      (some L3PError.SimultaneousV4V6SubnetpoolsNotSupportedOnAimDriver,
        l3p, [])
    else if (l3p.address_scope_v4_id.isSome ∧ ¬ l3p.subnetpools_v6.isEmpty)
        ∨ (l3p.address_scope_v6_id.isSome
          ∧ ¬ l3p.subnetpools_v4.isEmpty) then
      (some L3PError.InconsistentAddressScopeSubnetpool, l3p, [])
    else
      match resolve_address_scope l3p with
      | (db, isV6, ev1) =>
        match resolve_subnetpools env isV6 db with
        | Except.error e => (some e, db, ev1)
        | Except.ok (db2, ev2) =>
          match create_l3_policy_routers_stage env db2 with
          | (err, db3, ev3) => (err, db3, ev1 ++ ev2 ++ ev3)

theorem routers_stage_db (env : L3PEnv) (db : L3Policy) :
    (create_l3_policy_routers_stage env db).2.1 = db := by
  unfold create_l3_policy_routers_stage
  split
  · rfl
  · split <;> rfl

theorem set_scope_ip_pool (db : L3Policy) (b : Bool) (v : Option String) :
    (set_scope db b v).ip_pool = db.ip_pool := by
  cases b <;> rfl

theorem set_scope_subnet_prefix_length (db : L3Policy) (b : Bool)
    (v : Option String) :
    (set_scope db b v).subnet_prefix_length = db.subnet_prefix_length := by
  cases b <;> rfl

theorem scope_of_set_scope (db : L3Policy) (b : Bool) (v : Option String) :
    scope_of (set_scope db b v) b = v := by
  cases b <;> rfl

theorem multi_pool_go_ok (env : L3PEnv) (isV6 : Bool) (sc : String) :
    ∀ (ids : List String) (db : L3Policy) (sp_ascp : Option String),
      (∀ sp_id ∈ ids, ∃ sp, get_subnetpool env sp_id = some sp
        ∧ sp.address_scope_id = some sc) →
      (sp_ascp = none ∨ sp_ascp = some sc) →
      (scope_of db isV6 = none ∨ scope_of db isV6 = some sc) →
      ∃ dbz, multi_pool_go env isV6 ids db sp_ascp = Except.ok dbz := by
  intro ids
  induction ids with
  | nil => exact fun db sp_ascp _ _ _ => ⟨db, rfl⟩
  | cons hd tl ih =>
    intro db sp_ascp hall hascp hdb
    obtain ⟨sp, hsp, hscope⟩ := hall hd (List.mem_cons_self hd tl)
    have htl : ∀ sp_id ∈ tl, ∃ sp, get_subnetpool env sp_id = some sp
        ∧ sp.address_scope_id = some sc :=
      fun sp_id hm => hall sp_id (List.mem_cons_of_mem hd hm)
    rcases hascp with hascp | hascp <;> subst hascp
    · rcases hdb with hdb | hdb
      · simp only [multi_pool_go, hsp, hscope, hdb]
        exact ih (set_scope db isV6 (some sc)) (some sc) htl (Or.inr rfl)
          (Or.inr (scope_of_set_scope db isV6 (some sc)))
      · simp only [multi_pool_go, hsp, hscope, hdb]
        rw [if_neg (by simp)]
        exact ih db (some sc) htl (Or.inr rfl) (Or.inr hdb)
    · simp only [multi_pool_go, hsp, hscope]
      rw [if_neg (by simp)]
      exact ih db (some sc) htl (Or.inr rfl) hdb

theorem scope_of_update_subnet_prefix_length (db : L3Policy) (b : Bool)
    (v : Option Nat) :
    scope_of { db with subnet_prefix_length := v } b = scope_of db b := by
  cases b <;> rfl

theorem create_l3p_after_guards (env : L3PEnv) (l3p db0 : L3Policy)
    (isV6 : Bool) (ev1 : List AllocEvent)
    (hes : check_l3policy_ext_segment env l3p = none)
    (hg1 : ¬ (l3p.address_scope_v4_id.isSome
      ∧ l3p.address_scope_v6_id.isSome))
    (hg2 : ¬ ((¬ l3p.subnetpools_v4.isEmpty) ∧ ¬ l3p.subnetpools_v6.isEmpty))
    (hg3 : ¬ ((l3p.address_scope_v4_id.isSome ∧ ¬ l3p.subnetpools_v6.isEmpty)
      ∨ (l3p.address_scope_v6_id.isSome ∧ ¬ l3p.subnetpools_v4.isEmpty)))
    (hra : resolve_address_scope l3p = (db0, isV6, ev1)) :
    create_l3_policy_precommit env l3p =
      (match resolve_subnetpools env isV6 db0 with
      | Except.error e => (some e, db0, ev1)
      | Except.ok (db2, ev2) =>
        match create_l3_policy_routers_stage env db2 with
        | (err, db3, ev3) => (err, db3, ev1 ++ ev2 ++ ev3)) := by
  unfold create_l3_policy_precommit
  simp only [hes]
  rw [if_neg hg1, if_neg hg2, if_neg hg3]
  simp only [hra]

/-! ## Claim C3 -/

/-- C3 (confirmed): on RoutingDomain.create, (i) with exactly one explicitly
supplied subnet pool — which must carry an address scope and here a single
prefix — the row's single-prefix fields are set to that pool's prefix and
default prefix length and the pool's address scope is adopted; (ii) with more
than one supplied pool, all carrying one shared address scope that matches
the row's scope when one was set, the create passes the consistency check and
both single-prefix fields are set to None; (iii) when two supplied pools
carry different address scopes the create raises
InconsistentAddressScopeSubnetpool. -/
theorem C3_subnetpool_resolution :
    (∀ (env : L3PEnv) (l3p db0 : L3Policy) (isV6 : Bool)
        (ev1 : List AllocEvent) (sp_id : String) (sp : SubnetPool)
        (sc p : String),
      check_l3policy_ext_segment env l3p = none →
      ¬ (l3p.address_scope_v4_id.isSome ∧ l3p.address_scope_v6_id.isSome) →
      ¬ ((¬ l3p.subnetpools_v4.isEmpty) ∧ ¬ l3p.subnetpools_v6.isEmpty) →
      ¬ ((l3p.address_scope_v4_id.isSome ∧ ¬ l3p.subnetpools_v6.isEmpty)
        ∨ (l3p.address_scope_v6_id.isSome
          ∧ ¬ l3p.subnetpools_v4.isEmpty)) →
      resolve_address_scope l3p = (db0, isV6, ev1) →
      selected_subnetpools db0 isV6 = [sp_id] →
      get_subnetpool env sp_id = some sp →
      sp.address_scope_id = some sc →
      sp.prefixes = [p] →
      (create_l3_policy_precommit env l3p).2.1.ip_pool = some p
        ∧ (create_l3_policy_precommit env l3p).2.1.subnet_prefix_length
            = some sp.default_prefixlen
        ∧ scope_of (create_l3_policy_precommit env l3p).2.1 isV6 = some sc)
    ∧ (∀ (env : L3PEnv) (l3p db0 : L3Policy) (isV6 : Bool)
        (ev1 : List AllocEvent) (a b : String) (rest : List String)
        (sc : String),
      check_l3policy_ext_segment env l3p = none →
      ¬ (l3p.address_scope_v4_id.isSome ∧ l3p.address_scope_v6_id.isSome) →
      ¬ ((¬ l3p.subnetpools_v4.isEmpty) ∧ ¬ l3p.subnetpools_v6.isEmpty) →
      ¬ ((l3p.address_scope_v4_id.isSome ∧ ¬ l3p.subnetpools_v6.isEmpty)
        ∨ (l3p.address_scope_v6_id.isSome
          ∧ ¬ l3p.subnetpools_v4.isEmpty)) →
      resolve_address_scope l3p = (db0, isV6, ev1) →
      selected_subnetpools db0 isV6 = a :: b :: rest →
      (∀ sp_id ∈ a :: b :: rest, ∃ sp, get_subnetpool env sp_id = some sp
        ∧ sp.address_scope_id = some sc) →
      (scope_of db0 isV6 = none ∨ scope_of db0 isV6 = some sc) →
      (create_l3_policy_precommit env l3p).2.1.ip_pool = none
        ∧ (create_l3_policy_precommit env l3p).2.1.subnet_prefix_length
            = none)
    ∧ (∀ (env : L3PEnv) (l3p db0 : L3Policy) (isV6 : Bool)
        (ev1 : List AllocEvent) (a b : String) (rest : List String)
        (spa spb : SubnetPool) (s1 s2 : String),
      check_l3policy_ext_segment env l3p = none →
      ¬ (l3p.address_scope_v4_id.isSome ∧ l3p.address_scope_v6_id.isSome) →
      ¬ ((¬ l3p.subnetpools_v4.isEmpty) ∧ ¬ l3p.subnetpools_v6.isEmpty) →
      ¬ ((l3p.address_scope_v4_id.isSome ∧ ¬ l3p.subnetpools_v6.isEmpty)
        ∨ (l3p.address_scope_v6_id.isSome
          ∧ ¬ l3p.subnetpools_v4.isEmpty)) →
      resolve_address_scope l3p = (db0, isV6, ev1) →
      selected_subnetpools db0 isV6 = a :: b :: rest →
      get_subnetpool env a = some spa →
      spa.address_scope_id = some s1 →
      get_subnetpool env b = some spb →
      spb.address_scope_id = some s2 →
      s1 ≠ s2 →
      scope_of db0 isV6 = none →
      (create_l3_policy_precommit env l3p).1
        = some L3PError.InconsistentAddressScopeSubnetpool) := by
  refine ⟨?_, ?_, ?_⟩
  · intro env l3p db0 isV6 ev1 sp_id sp sc p hes hg1 hg2 hg3 hra hsel hsp
      hsc hpref
    have hsub : resolve_subnetpools env isV6 db0 =
        Except.ok ({ set_scope { db0 with ip_pool := some p } isV6 (some sc)
          with subnet_prefix_length := some sp.default_prefixlen }, []) := by
      unfold resolve_subnetpools
      simp only [hsel, hsp, hsc, hpref]
    rw [create_l3p_after_guards env l3p db0 isV6 ev1 hes hg1 hg2 hg3 hra,
      hsub]
    rcases hst : create_l3_policy_routers_stage env
        ({ set_scope { db0 with ip_pool := some p } isV6 (some sc)
          with subnet_prefix_length := some sp.default_prefixlen })
      with ⟨err, db3, ev3⟩
    have hdb3 : db3 =
        { set_scope { db0 with ip_pool := some p } isV6 (some sc)
          with subnet_prefix_length := some sp.default_prefixlen } := by
      have h := routers_stage_db env
        ({ set_scope { db0 with ip_pool := some p } isV6 (some sc)
          with subnet_prefix_length := some sp.default_prefixlen })
      rw [hst] at h
      exact h
    simp only [hst]
    subst hdb3
    refine ⟨?_, rfl, ?_⟩
    · show (set_scope { db0 with ip_pool := some p } isV6 (some sc)).ip_pool
        = some p
      rw [set_scope_ip_pool]
    · rw [scope_of_update_subnet_prefix_length, scope_of_set_scope]
  · intro env l3p db0 isV6 ev1 a b rest sc hes hg1 hg2 hg3 hra hsel hall hdb
    obtain ⟨dbz, hdbz⟩ := multi_pool_go_ok env isV6 sc (a :: b :: rest) db0
      none hall (Or.inl rfl) hdb
    have hsub : resolve_subnetpools env isV6 db0 =
        Except.ok ({ dbz with ip_pool := none, subnet_prefix_length := none }, []) := by
      unfold resolve_subnetpools
      simp only [hsel, hdbz]
    rw [create_l3p_after_guards env l3p db0 isV6 ev1 hes hg1 hg2 hg3 hra,
      hsub]
    rcases hst : create_l3_policy_routers_stage env
        ({ dbz with ip_pool := none, subnet_prefix_length := none })
      with ⟨err, db3, ev3⟩
    have hdb3 : db3 =
        { dbz with ip_pool := none, subnet_prefix_length := none } := by
      have h := routers_stage_db env
        ({ dbz with ip_pool := none, subnet_prefix_length := none })
      rw [hst] at h
      exact h
    simp only [hst]
    subst hdb3
    exact ⟨rfl, rfl⟩
  · intro env l3p db0 isV6 ev1 a b rest spa spb s1 s2 hes hg1 hg2 hg3 hra
      hsel hspa hs1 hspb hs2 hne hdb
    have hmp : multi_pool_go env isV6 (a :: b :: rest) db0 none =
        Except.error L3PError.InconsistentAddressScopeSubnetpool := by
      have h1 : multi_pool_go env isV6 (a :: b :: rest) db0 none =
          multi_pool_go env isV6 (b :: rest)
            (set_scope db0 isV6 (some s1)) (some s1) := by
        simp only [multi_pool_go, hspa, hs1, hdb]
      rw [h1]
      simp only [multi_pool_go, hspb, hs2]
      rw [if_pos hne]
    have hsub : resolve_subnetpools env isV6 db0 =
        Except.error L3PError.InconsistentAddressScopeSubnetpool := by
      unfold resolve_subnetpools
      simp only [hsel, hmp]
    rw [create_l3p_after_guards env l3p db0 isV6 ev1 hes hg1 hg2 hg3 hra,
      hsub]

/-- C3 witness: a concrete single-pool create copies the pool's prefix,
default prefix length, and address scope onto the RoutingDomain. -/
theorem C3_subnetpool_resolution_witness :
    (create_l3_policy_precommit
        ⟨[⟨"sp1", some "as1", ["10.0.0.0/8"], 24⟩], [], false⟩
        ⟨"l3", 4, none, none, ["sp1"], [], none, none, [], []⟩).2.1.ip_pool
      = some "10.0.0.0/8"
    ∧ (create_l3_policy_precommit
        ⟨[⟨"sp1", some "as1", ["10.0.0.0/8"], 24⟩], [], false⟩
        ⟨"l3", 4, none, none, ["sp1"], [], none, none, [],
          []⟩).2.1.subnet_prefix_length = some 24
    ∧ scope_of (create_l3_policy_precommit
        ⟨[⟨"sp1", some "as1", ["10.0.0.0/8"], 24⟩], [], false⟩
        ⟨"l3", 4, none, none, ["sp1"], [], none, none, [], []⟩).2.1 false
      = some "as1" :=
  C3_subnetpool_resolution.1
    ⟨[⟨"sp1", some "as1", ["10.0.0.0/8"], 24⟩], [], false⟩
    ⟨"l3", 4, none, none, ["sp1"], [], none, none, [], []⟩
    ⟨"l3", 4, none, none, ["sp1"], [], none, none, [], []⟩
    false [] "sp1" ⟨"sp1", some "as1", ["10.0.0.0/8"], 24⟩ "as1" "10.0.0.0/8"
    rfl (by decide) (by decide) (by decide) (by decide) (by decide)
    (by decide) rfl rfl

/-! ## L2 policy create/delete (source lines 387-458) -/

/-- An l2-policy row: id and owning tenant. -/
structure L2Policy where
  id : String
  tenant_id : String
deriving DecidableEq, Repr

/-- Modelled from the spec: `get_l2_policies_count` is the GBP DB mixin's
collection count (repository code that is not under the source tree), whose
query the framework scopes to the requesting tenant; per the spec the
first/last tests are per tenant ("first BridgingDomain created under a
tenant" / "last BridgingDomain in the tenant"). -/
def get_l2_policies_count (db : List L2Policy) (tenant_id : String) : Nat :=
  (db.filter (fun p => p.tenant_id = tenant_id)).length

/-- Calls issued by the l2-policy lifecycle for the tenant's shared implicit
contracts and the auto PTG. -/
inductive L2Effect where
  | create_implicit_contracts_and_configure_default_epg (tenant_id : String)
  | configure_contracts_for_default_epg (tenant_id : String)
  | create_auto_ptg (ptg_id : String)
  | delete_auto_ptg (ptg_id : String)
  | delete_implicit_contracts_and_unconfigure_default_epg (tenant_id : String)
deriving DecidableEq, Repr

/-- `create_l2_policy_precommit` (source lines 387-422): the precommit runs
inside the create transaction after the framework inserted the row, so `db`
already contains `l2p`.  When this is the tenant's first l2 policy
(count == 1) the shared implicit contracts are created and the default EPG
fully configured; otherwise only the already-existing contracts are attached
to the default EPG.  With auto-PTG creation configured, the synthetic group
with the hashed id is then created. -/
def create_l2_policy_precommit (auto_ptg_enabled : Bool)
    (md5hex : String → String) (db : List L2Policy) (l2p : L2Policy) :
    List L2Effect :=
  (if get_l2_policies_count db l2p.tenant_id = 1 then
    [L2Effect.create_implicit_contracts_and_configure_default_epg
      l2p.tenant_id]
  else
    [L2Effect.configure_contracts_for_default_epg l2p.tenant_id])
  ++ (if auto_ptg_enabled then
    [L2Effect.create_auto_ptg (get_auto_ptg_id md5hex l2p.id)]
  else [])

/-- `delete_l2_policy_precommit` (source lines 424-458): the precommit runs
before the row is removed, so `db` still contains `l2p`.  The auto PTG is
deleted (a not-found is tolerated and logged), then, when this is the
tenant's last l2 policy (count == 1), the shared implicit contracts are
unconfigured and deleted. -/
def delete_l2_policy_precommit (md5hex : String → String)
    (db : List L2Policy) (l2p : L2Policy) : List L2Effect :=
  [L2Effect.delete_auto_ptg (get_auto_ptg_id md5hex l2p.id)]
  ++ (if get_l2_policies_count db l2p.tenant_id = 1 then
    [L2Effect.delete_implicit_contracts_and_unconfigure_default_epg
      l2p.tenant_id]
  else [])

theorem l2_count_one_iff (db : List L2Policy) (l2p : L2Policy)
    (hnd : db.Nodup) (hmem : l2p ∈ db) :
    get_l2_policies_count db l2p.tenant_id = 1 ↔
      ∀ x ∈ db, x.tenant_id = l2p.tenant_id → x = l2p := by
  unfold get_l2_policies_count
  have hl2p : l2p ∈ db.filter (fun p => p.tenant_id = l2p.tenant_id) := by
    simp [List.mem_filter, hmem]
  constructor
  · intro h1 x hx ht
    obtain ⟨a, ha⟩ := List.length_eq_one.mp h1
    have hxf : x ∈ db.filter (fun p => p.tenant_id = l2p.tenant_id) := by
      simp [List.mem_filter, hx, ht]
    rw [ha] at hl2p hxf
    simp only [List.mem_singleton] at hl2p hxf
    rw [hxf, ← hl2p]
  · intro hall
    rcases hF : db.filter (fun p => p.tenant_id = l2p.tenant_id)
      with _ | ⟨a, _ | ⟨b, tl⟩⟩
    · rw [hF] at hl2p
      cases hl2p
    · rw [hF]
      rfl
    · exfalso
      have hnf := hnd.filter
        (fun p => decide (p.tenant_id = l2p.tenant_id))
      rw [hF] at hnf
      have hane : a ≠ b := by
        intro hab
        have := (List.nodup_cons.mp hnf).1
        rw [hab] at this
        exact this (List.mem_cons_self b tl)
      have ha : a = l2p := by
        have : a ∈ db.filter (fun p => p.tenant_id = l2p.tenant_id) := by
          rw [hF]
          exact List.mem_cons_self a (b :: tl)
        rw [List.mem_filter] at this
        exact hall a this.1 (by simpa using this.2)
      have hb : b = l2p := by
        have : b ∈ db.filter (fun p => p.tenant_id = l2p.tenant_id) := by
          rw [hF]
          exact List.mem_cons_of_mem a (List.mem_cons_self b tl)
        rw [List.mem_filter] at this
        exact hall b this.1 (by simpa using this.2)
      exact hane (ha.trans hb.symm)

/-! ## Claim C5 -/

/-- C5 (confirmed): the tenant's shared implicit contracts are created
exactly when the created l2 policy is the first one of its tenant (on any
later create only the attach-only configuration call is issued instead), and
they are unconfigured and deleted exactly when the deleted l2 policy is the
last one of its tenant. -/
theorem C5_shared_contracts_first_and_last (auto_ptg_enabled : Bool)
    (md5hex : String → String) (db : List L2Policy) (l2p : L2Policy)
    (hnd : db.Nodup) (hmem : l2p ∈ db) :
    ((L2Effect.create_implicit_contracts_and_configure_default_epg
          l2p.tenant_id
        ∈ create_l2_policy_precommit auto_ptg_enabled md5hex db l2p)
      ↔ (∀ x ∈ db, x.tenant_id = l2p.tenant_id → x = l2p))
    ∧ ((L2Effect.configure_contracts_for_default_epg l2p.tenant_id
        ∈ create_l2_policy_precommit auto_ptg_enabled md5hex db l2p)
      ↔ ¬ (∀ x ∈ db, x.tenant_id = l2p.tenant_id → x = l2p))
    ∧ ((L2Effect.delete_implicit_contracts_and_unconfigure_default_epg
          l2p.tenant_id
        ∈ delete_l2_policy_precommit md5hex db l2p)
      ↔ (∀ x ∈ db, x.tenant_id = l2p.tenant_id → x = l2p)) := by
  have hiff := l2_count_one_iff db l2p hnd hmem
  by_cases hc : get_l2_policies_count db l2p.tenant_id = 1
  · refine ⟨iff_of_true ?_ (hiff.mp hc),
      iff_of_false ?_ (fun hno => hno (hiff.mp hc)),
      iff_of_true ?_ (hiff.mp hc)⟩
    · simp [create_l2_policy_precommit, hc]
    · simp [create_l2_policy_precommit, hc]
    · simp [delete_l2_policy_precommit, hc]
  · refine ⟨iff_of_false ?_ (fun hall => hc (hiff.mpr hall)),
      iff_of_true ?_ (fun hall => hc (hiff.mpr hall)),
      iff_of_false ?_ (fun hall => hc (hiff.mpr hall))⟩
    · simp [create_l2_policy_precommit, hc]
    · simp [create_l2_policy_precommit, hc]
    · simp [delete_l2_policy_precommit, hc]

/-- C5 witness: for a tenant whose only l2 policy is the one being created,
the implicit-contract creation call is issued. -/
theorem C5_shared_contracts_first_and_last_witness :
    L2Effect.create_implicit_contracts_and_configure_default_epg "t1"
      ∈ create_l2_policy_precommit true (fun _ => "h")
        [⟨"l2a", "t1"⟩, ⟨"l2b", "t2"⟩] ⟨"l2a", "t1"⟩ :=
  ((C5_shared_contracts_first_and_last true (fun _ => "h")
      [⟨"l2a", "t1"⟩, ⟨"l2b", "t2"⟩] ⟨"l2a", "t1"⟩
      (by decide) (by decide)).1).mpr (by decide)

/-! ## Claim C7 -/

/-- C7 (confirmed): creating a RoutingDomain whose v4 and v6 address scopes
are both set fails with the simultaneous-address-family error
(`SimultaneousV4V6AddressScopesNotSupportedOnAimDriver`), and no allocation
or fabric/ancillary write precedes the raise: the row comes back unchanged
and the event list is empty.  The external-segment validation that runs first
performs no writes; the hypothesis states it passes. -/
theorem C7_simultaneous_address_family (env : L3PEnv) (l3p : L3Policy)
    (hes : check_l3policy_ext_segment env l3p = none)
    (h4 : l3p.address_scope_v4_id.isSome)
    (h6 : l3p.address_scope_v6_id.isSome) :
    create_l3_policy_precommit env l3p =
      (some L3PError.SimultaneousV4V6AddressScopesNotSupportedOnAimDriver,
        l3p, []) := by
  unfold create_l3_policy_precommit
  simp only [hes]
  rw [if_pos ⟨h4, h6⟩]

/-- C7 witness: a concrete create with both address scopes set. -/
theorem C7_simultaneous_address_family_witness :
    create_l3_policy_precommit ⟨[], [], false⟩
        ⟨"l3", 4, some "as4", some "as6", [], [], none, none, [], []⟩ =
      (some L3PError.SimultaneousV4V6AddressScopesNotSupportedOnAimDriver,
        ⟨"l3", 4, some "as4", some "as6", [], [], none, none, [], []⟩, []) :=
  C7_simultaneous_address_family ⟨[], [], false⟩
    ⟨"l3", 4, some "as4", some "as6", [], [], none, none, [], []⟩
    rfl rfl rfl


/-! ## Tenant-shared implicit contracts (source lines 1185-1331) -/

/-- Kinds of AIM resources written by `_process_contracts_for_default_epg`. -/
inductive AimKind where
  | contract
  | contractSubject
  | filt
  | filterEntry
  | endpointGroup
deriving DecidableEq, Repr

/-- Store key of an AIM resource: kind, tenant name, parent name (the
contract name for subjects, the filter name for entries) and own name. -/
structure AimKey where
  kind : AimKind
  tenant_name : String
  parent : Option AimName
  name : AimName
deriving DecidableEq, Repr

/-- Stored AIM resource contents (only the parts the procedure writes). -/
inductive AimVal where
  | contract
  | subject (in_f out_f bi_f : List AimName)
  | filt
  | entry (attrs : String)
  | epg (provided consumed : List AimName)
deriving DecidableEq, Repr

/-- The AIM fabric store: `aim.get` is application, `aim.create` with
`overwrite=True` is pointwise update. -/
def FabricStore : Type := AimKey -> Option AimVal

/-- `aim.create(..., overwrite=True)`. -/
def aim_create (store : FabricStore) (k : AimKey) (v : AimVal) :
    FabricStore :=
  fun q => if q = k then some v else store q

/-- Apply a sequence of overwrite-creates in order. -/
def applyWrites : List (AimKey × AimVal) -> FabricStore -> FabricStore
  | [], s => s
  | (k, v) :: ws, s => applyWrites ws (aim_create s k v)

/-- Modelled from the spec: `alib.SERVICE_PREFIX`, the name marker of the
infra-services contract (`apic_mapping_lib` is not under the source tree). -/
def SERVICE_PREF : String := "Svc-"

/-- Modelled from the spec: `alib.IMPLICIT_PREFIX`, the name marker of the
ARP contract. -/
def IMPLICIT_PREF : String := "NoRoute-"

/-- Writes of the first loop iteration of
`_process_contracts_for_default_epg` with `create=True` before the default
EPG write: the infra-services Contract (source line 1253). -/
def writes_A (tn ti : String) : List (AimKey × AimVal) :=
  [(⟨AimKind.contract, tn, none, ⟨SERVICE_PREF, ti⟩⟩, AimVal.contract)]

/-- Writes between the two default-EPG writes: the infra-services Filters and
FilterEntries (source lines 1287-1293; the fixed entry set returned by
`alib.get_service_contract_filter_entries`, which is not under the source
tree, is modelled from the spec as the dhcp/dns/icmp services), the
infra-services ContractSubject carrying those filters as bidirectional
(source lines 1303-1307), and then the second iteration's ARP Contract. -/
def writes_B (tn ti : String) : List (AimKey × AimVal) :=
  [(⟨AimKind.filt, tn, none, ⟨SERVICE_PREF ++ "dhcp-", ti⟩⟩, AimVal.filt),
   (⟨AimKind.filterEntry, tn, some ⟨SERVICE_PREF ++ "dhcp-", ti⟩,
      ⟨"", "dhcp"⟩⟩, AimVal.entry "udp-67"),
   (⟨AimKind.filt, tn, none, ⟨SERVICE_PREF ++ "dns-", ti⟩⟩, AimVal.filt),
   (⟨AimKind.filterEntry, tn, some ⟨SERVICE_PREF ++ "dns-", ti⟩,
      ⟨"", "dns"⟩⟩, AimVal.entry "udp-53"),
   (⟨AimKind.filt, tn, none, ⟨SERVICE_PREF ++ "icmp-", ti⟩⟩, AimVal.filt),
   (⟨AimKind.filterEntry, tn, some ⟨SERVICE_PREF ++ "icmp-", ti⟩,
      ⟨"", "icmp"⟩⟩, AimVal.entry "icmp"),
   (⟨AimKind.contractSubject, tn, some ⟨SERVICE_PREF, ti⟩,
      ⟨SERVICE_PREF, ti⟩⟩,
     AimVal.subject [] []
       [⟨SERVICE_PREF ++ "dhcp-", ti⟩, ⟨SERVICE_PREF ++ "dns-", ti⟩,
        ⟨SERVICE_PREF ++ "icmp-", ti⟩]),
   (⟨AimKind.contract, tn, none, ⟨IMPLICIT_PREF, ti⟩⟩, AimVal.contract)]

/-- Writes after the second default-EPG write: the ARP Filter and FilterEntry
(the fixed entry returned by `alib.get_arp_filter_entry`, modelled from the
spec) and the ARP ContractSubject. -/
def writes_C (tn ti : String) : List (AimKey × AimVal) :=
  [(⟨AimKind.filt, tn, none, ⟨IMPLICIT_PREF ++ "arp-", ti⟩⟩, AimVal.filt),
   (⟨AimKind.filterEntry, tn, some ⟨IMPLICIT_PREF ++ "arp-", ti⟩,
      ⟨"", "arp"⟩⟩, AimVal.entry "arp"),
   (⟨AimKind.contractSubject, tn, some ⟨IMPLICIT_PREF, ti⟩,
      ⟨IMPLICIT_PREF, ti⟩⟩,
     AimVal.subject [] [] [⟨IMPLICIT_PREF ++ "arp-", ti⟩])]

/-- The full overwrite-create sequence issued by one run of
`_process_contracts_for_default_epg(create=True, delete=False)`
(source lines 1203-1310), iterating the contracts dict in its literal order
{service, implicit}.  `v1` and `v2` are the two successive values written
onto the default EPG at `epg_key` by `_add_contracts_for_epg`
(source lines 1257-1267, 1324-1331): the same in-memory EPG object is
mutated across both iterations and persisted each time. -/
def process_create_writes (tn ti : String) (epg_key : AimKey)
    (v1 v2 : AimVal) : List (AimKey × AimVal) :=
  writes_A tn ti ++ [(epg_key, v1)] ++ writes_B tn ti ++ [(epg_key, v2)]
    ++ writes_C tn ti

/-- `_process_contracts_for_default_epg` with `create=True, delete=False`
(source lines 1203-1310): the default EPG is fetched from the store first
(source lines 1222-1223); when it is absent the procedure dereferences `None`
(`_add_contracts_for_epg` appends to its contract-name lists), modelled as
`none`.  The ARP contract is attached as provided and consumed, the
infra-services contract as provided only. -/
def process_contracts_for_default_epg_create (tn ti : String)
    (epg_key : AimKey) (store : FabricStore) : Option FabricStore :=
  match store epg_key with
  | some (AimVal.epg prov cons) =>
    some (applyWrites
      (process_create_writes tn ti epg_key
        (AimVal.epg (prov ++ [⟨SERVICE_PREF, ti⟩]) cons)
        (AimVal.epg (prov ++ [⟨SERVICE_PREF, ti⟩] ++ [⟨IMPLICIT_PREF, ti⟩])
          (cons ++ [⟨IMPLICIT_PREF, ti⟩])))
      store)
  | _ => none

theorem aim_create_self (s : FabricStore) (k : AimKey) (v : AimVal) :
    aim_create s k v k = some v := by
  simp [aim_create]

theorem aim_create_ne (s : FabricStore) (k : AimKey) (v : AimVal)
    (q : AimKey) (h : q ≠ k) : aim_create s k v q = s q := by
  simp [aim_create, h]

theorem applyWrites_append (ws1 ws2 : List (AimKey × AimVal))
    (s : FabricStore) :
    applyWrites (ws1 ++ ws2) s = applyWrites ws2 (applyWrites ws1 s) := by
  induction ws1 generalizing s with
  | nil => rfl
  | cons p ws ih =>
    rcases p with ⟨k, v⟩
    simp only [List.cons_append, applyWrites]
    exact ih (aim_create s k v)

theorem applyWrites_congr_at (ws : List (AimKey × AimVal))
    (s s' : FabricStore) (k : AimKey) (h : s k = s' k) :
    applyWrites ws s k = applyWrites ws s' k := by
  induction ws generalizing s s' with
  | nil => exact h
  | cons p ws ih =>
    rcases p with ⟨k', v⟩
    simp only [applyWrites]
    refine ih (aim_create s k' v) (aim_create s' k' v) ?_
    unfold aim_create
    split
    · rfl
    · exact h

theorem applyWrites_not_written (ws : List (AimKey × AimVal))
    (s : FabricStore) (k : AimKey)
    (h : ws.all (fun p => p.1 ≠ k)) :
    applyWrites ws s k = s k := by
  induction ws generalizing s with
  | nil => rfl
  | cons p ws ih =>
    rcases p with ⟨k', v⟩
    simp only [List.all_cons, Bool.and_eq_true] at h
    simp only [applyWrites]
    rw [ih (aim_create s k' v) h.2, aim_create_ne]
    intro hk
    exact absurd (by simpa using h.1) (by simp [hk])

theorem applyWrites_written (ws : List (AimKey × AimVal))
    (s s' : FabricStore) (k : AimKey)
    (h : ws.any (fun p => p.1 = k)) :
    applyWrites ws s k = applyWrites ws s' k := by
  induction ws generalizing s s' with
  | nil => simp at h
  | cons p ws ih =>
    rcases p with ⟨k', v⟩
    simp only [applyWrites]
    by_cases hw : ws.any (fun p => p.1 = k)
    · exact ih (aim_create s k' v) (aim_create s' k' v) hw
    · have hk : k = k' := by
        simp only [List.any_cons, Bool.or_eq_true] at h
        rcases h with h | h
        · have hkk : k' = k := by simpa using h
          exact hkk.symm
        · exact absurd h hw
      refine applyWrites_congr_at ws _ _ k ?_
      subst hk
      rw [aim_create_self, aim_create_self]


theorem any_eq_false_to_all (ws : List (AimKey × AimVal)) (k : AimKey)
    (h : ¬ ws.any (fun p => p.1 = k) = true) :
    ws.all (fun p => p.1 ≠ k) = true := by
  rw [List.all_eq_true]
  intro p hp
  simp only [decide_eq_true_eq]
  intro hpk
  exact h (by rw [List.any_eq_true]; exact ⟨p, hp, by simp [hpk]⟩)

theorem applyWrites_singleton (s : FabricStore) (kk : AimKey)
    (vv : AimVal) : applyWrites [(kk, vv)] s = aim_create s kk vv := rfl

theorem applyWrites_process_strip (tn ti : String) (e : AimKey)
    (v1 v2 : AimVal) (s : FabricStore) (k : AimKey) (hk : k ≠ e) :
    applyWrites (process_create_writes tn ti e v1 v2) s k
      = applyWrites (writes_A tn ti ++ writes_B tn ti ++ writes_C tn ti) s
          k := by
  rw [process_create_writes]
  simp only [applyWrites_append, applyWrites_singleton]
  refine applyWrites_congr_at _ _ _ _ ?_
  rw [aim_create_ne _ _ _ _ hk]
  refine applyWrites_congr_at _ _ _ _ ?_
  exact aim_create_ne _ _ _ _ hk

theorem process_create_writes_last_epg (tn ti : String) (e : AimKey)
    (he : e.kind = AimKind.endpointGroup) (v1 v2 : AimVal)
    (s : FabricStore) :
    applyWrites (process_create_writes tn ti e v1 v2) s e = some v2 := by
  obtain ⟨ek, etn, epar, enm⟩ := e
  have hek : ek = AimKind.endpointGroup := he
  subst hek
  rw [process_create_writes]
  simp only [applyWrites_append, applyWrites_singleton]
  rw [applyWrites_not_written (writes_C tn ti) _ _
    (by simp [writes_C, AimKey.mk.injEq])]
  exact aim_create_self _ _ _

/-! ## Claim C8 -/

/-- C8 (confirmed): running the tenant-shared implicit-contract creation
procedure twice in succession leaves exactly the same Contract,
ContractSubject, Filter and FilterEntry store content as running it once —
every write the procedure issues is an overwrite-create whose key and value
are a pure function of the tenant, except the two default-EPG writes, which
are excluded from the claimed resource set. -/
theorem C8_shared_contract_creation_idempotent (tn ti : String)
    (epg_key : AimKey) (store s1 : FabricStore)
    (hkind : epg_key.kind = AimKind.endpointGroup)
    (h1 : process_contracts_for_default_epg_create tn ti epg_key store
      = some s1) :
    ∃ s2, process_contracts_for_default_epg_create tn ti epg_key s1
        = some s2
      ∧ ∀ k, k.kind ≠ AimKind.endpointGroup → s2 k = s1 k := by
  rcases hst : store epg_key with _ | val
  · simp [process_contracts_for_default_epg_create, hst] at h1
  · cases val with
    | contract => simp [process_contracts_for_default_epg_create, hst] at h1
    | subject a b c =>
      simp [process_contracts_for_default_epg_create, hst] at h1
    | filt => simp [process_contracts_for_default_epg_create, hst] at h1
    | entry a => simp [process_contracts_for_default_epg_create, hst] at h1
    | epg prov cons =>
      rw [process_contracts_for_default_epg_create, hst] at h1
      simp only [Option.some.injEq] at h1
      subst h1
      have hfetch := process_create_writes_last_epg tn ti epg_key hkind
        (AimVal.epg (prov ++ [⟨SERVICE_PREF, ti⟩]) cons)
        (AimVal.epg (prov ++ [⟨SERVICE_PREF, ti⟩] ++ [⟨IMPLICIT_PREF, ti⟩])
          (cons ++ [⟨IMPLICIT_PREF, ti⟩])) store
      refine ⟨applyWrites
          (process_create_writes tn ti epg_key
            (AimVal.epg ((prov ++ [⟨SERVICE_PREF, ti⟩]
                ++ [⟨IMPLICIT_PREF, ti⟩]) ++ [⟨SERVICE_PREF, ti⟩])
              (cons ++ [⟨IMPLICIT_PREF, ti⟩]))
            (AimVal.epg ((prov ++ [⟨SERVICE_PREF, ti⟩]
                  ++ [⟨IMPLICIT_PREF, ti⟩]) ++ [⟨SERVICE_PREF, ti⟩]
                ++ [⟨IMPLICIT_PREF, ti⟩])
              ((cons ++ [⟨IMPLICIT_PREF, ti⟩]) ++ [⟨IMPLICIT_PREF, ti⟩])))
          (applyWrites
            (process_create_writes tn ti epg_key
              (AimVal.epg (prov ++ [⟨SERVICE_PREF, ti⟩]) cons)
              (AimVal.epg (prov ++ [⟨SERVICE_PREF, ti⟩]
                  ++ [⟨IMPLICIT_PREF, ti⟩])
                (cons ++ [⟨IMPLICIT_PREF, ti⟩])))
            store), ?_, ?_⟩
      · rw [process_contracts_for_default_epg_create, hfetch]
      · intro k hkk
        have hke : k ≠ epg_key := fun h => hkk (h ▸ hkind)
        rw [applyWrites_process_strip _ _ _ _ _ _ _ hke]
        by_cases hany : (writes_A tn ti ++ writes_B tn ti
            ++ writes_C tn ti).any (fun p => p.1 = k) = true
        · rw [applyWrites_written _ _ store k hany,
            ← applyWrites_process_strip tn ti epg_key
              (AimVal.epg (prov ++ [⟨SERVICE_PREF, ti⟩]) cons)
              (AimVal.epg (prov ++ [⟨SERVICE_PREF, ti⟩]
                  ++ [⟨IMPLICIT_PREF, ti⟩])
                (cons ++ [⟨IMPLICIT_PREF, ti⟩])) store k hke]
        · rw [applyWrites_not_written _ _ _ (any_eq_false_to_all _ _ hany)]


/-- C8 witness: a concrete store holding only the default EPG; the second run
of the creation procedure succeeds and leaves every
Contract/ContractSubject/Filter/FilterEntry cell as after the first run. -/
theorem C8_shared_contract_creation_idempotent_witness :
    ∃ s2, process_contracts_for_default_epg_create "tn" "t1"
        ⟨AimKind.endpointGroup, "tn", none, ⟨"", "net"⟩⟩
        (applyWrites (process_create_writes "tn" "t1"
            ⟨AimKind.endpointGroup, "tn", none, ⟨"", "net"⟩⟩
            (AimVal.epg [⟨SERVICE_PREF, "t1"⟩] [])
            (AimVal.epg [⟨SERVICE_PREF, "t1"⟩, ⟨IMPLICIT_PREF, "t1"⟩]
              [⟨IMPLICIT_PREF, "t1"⟩]))
          (fun k =>
            if k = ⟨AimKind.endpointGroup, "tn", none, ⟨"", "net"⟩⟩
            then some (AimVal.epg [] []) else none)) = some s2
      ∧ ∀ k, k.kind ≠ AimKind.endpointGroup →
          s2 k = applyWrites (process_create_writes "tn" "t1"
              ⟨AimKind.endpointGroup, "tn", none, ⟨"", "net"⟩⟩
              (AimVal.epg [⟨SERVICE_PREF, "t1"⟩] [])
              (AimVal.epg [⟨SERVICE_PREF, "t1"⟩, ⟨IMPLICIT_PREF, "t1"⟩]
                [⟨IMPLICIT_PREF, "t1"⟩]))
            (fun k =>
              if k = ⟨AimKind.endpointGroup, "tn", none, ⟨"", "net"⟩⟩
              then some (AimVal.epg [] []) else none) k :=
  C8_shared_contract_creation_idempotent "tn" "t1"
    ⟨AimKind.endpointGroup, "tn", none, ⟨"", "net"⟩⟩
    (fun k =>
      if k = ⟨AimKind.endpointGroup, "tn", none, ⟨"", "net"⟩⟩
      then some (AimVal.epg [] []) else none)
    (applyWrites (process_create_writes "tn" "t1"
        ⟨AimKind.endpointGroup, "tn", none, ⟨"", "net"⟩⟩
        (AimVal.epg [⟨SERVICE_PREF, "t1"⟩] [])
        (AimVal.epg [⟨SERVICE_PREF, "t1"⟩, ⟨IMPLICIT_PREF, "t1"⟩]
          [⟨IMPLICIT_PREF, "t1"⟩]))
      (fun k =>
        if k = ⟨AimKind.endpointGroup, "tn", none, ⟨"", "net"⟩⟩
        then some (AimVal.epg [] []) else none))
    rfl rfl


/-! ## Implicit subnet allocation under concurrency (source lines 1154-1183)

`_use_implicit_subnet` takes the named blocking advisory lock keyed by the
BridgingDomain id (`lockutils.lock(l2p_id, external=True)`), reads the
BridgingDomain's current subnet set, allocates one new subnet exactly when
that set is empty (`force_add` is False on the EndpointGroup-create path),
and releases the lock.  Two concurrent EndpointGroup-create calls against the
same newly created BridgingDomain are modelled as a two-thread transition
system in which the critical-section statements are atomic steps gated by the
lock; the claim is a safety property over every interleaving. -/

/-- Program counter of one EndpointGroup-create call inside
`_use_implicit_subnet`. -/
inductive Pc where
  | acquire
  | readSubnets
  | allocate
  | release
  | finished
deriving DecidableEq, Repr, Fintype

/-- One caller: its program counter and the result of its `not subs` test. -/
structure Caller where
  pc : Pc
  sawEmpty : Bool
deriving DecidableEq, Repr, Fintype

/-- Global state: the holder of the per-BridgingDomain advisory lock, the
number of subnets the BridgingDomain owns (capped at 2; the cap is never hit
from the initial state), and the two callers. -/
structure SysState where
  lockHolder : Option (Fin 2)
  subnetCount : Fin 3
  c0 : Caller
  c1 : Caller
deriving DecidableEq, Repr, Fintype

/-- One scheduler choice: which caller runs which atomic statement next. -/
inductive StepKind where
  | lockAcquire
  | readStep
  | allocStep
  | releaseStep
deriving DecidableEq, Repr, Fintype

/-- A scheduled action. -/
structure Act where
  tid : Fin 2
  kind : StepKind
deriving DecidableEq, Repr, Fintype

/-- The caller record of thread `i`. -/
def getC (s : SysState) (i : Fin 2) : Caller :=
  if i = 0 then s.c0 else s.c1

/-- Replace the caller record of thread `i`. -/
def setC (s : SysState) (i : Fin 2) (c : Caller) : SysState :=
  if i = 0 then { s with c0 := c } else { s with c1 := c }

/-- Saturating increment on the subnet count. -/
def capInc (n : Fin 3) : Fin 3 := ⟨min (n.val + 1) 2, by omega⟩

/-- Small-step semantics of `_use_implicit_subnet`'s critical section.  An
action whose thread is not at the corresponding statement — or, for the
acquire, whose lock is held — is a no-op (the blocked acquire waits). -/
def step (s : SysState) (a : Act) : SysState :=
  match a.kind with
  | StepKind.lockAcquire =>
    if (getC s a.tid).pc = Pc.acquire ∧ s.lockHolder = none then
      setC { s with lockHolder := some a.tid } a.tid
        { getC s a.tid with pc := Pc.readSubnets }
    else s
  | StepKind.readStep =>
    if (getC s a.tid).pc = Pc.readSubnets then
      setC s a.tid
        { pc := Pc.allocate, sawEmpty := decide (s.subnetCount.val = 0) }
    else s
  | StepKind.allocStep =>
    if (getC s a.tid).pc = Pc.allocate then
      setC (if (getC s a.tid).sawEmpty then
          { s with subnetCount := capInc s.subnetCount } else s)
        a.tid { getC s a.tid with pc := Pc.release }
    else s
  | StepKind.releaseStep =>
    if (getC s a.tid).pc = Pc.release then
      setC { s with lockHolder := none } a.tid
        { getC s a.tid with pc := Pc.finished }
    else s

/-- Run a schedule. -/
def run (acts : List Act) (s : SysState) : SysState := acts.foldl step s

/-- Both callers start before the lock acquire, against a BridgingDomain that
owns no subnet yet. -/
def initState : SysState :=
  { lockHolder := none, subnetCount := 0,
    c0 := { pc := Pc.acquire, sawEmpty := false },
    c1 := { pc := Pc.acquire, sawEmpty := false } }

/-- Inside the critical section. -/
def inCS : Pc → Bool
  | Pc.readSubnets => true
  | Pc.allocate => true
  | Pc.release => true
  | _ => false

/-- Past the allocation statement. -/
def pastAlloc : Pc → Bool
  | Pc.release => true
  | Pc.finished => true
  | _ => false

/-- Number of subnets a caller has allocated so far. -/
def contrib (c : Caller) : Nat :=
  if c.sawEmpty && pastAlloc c.pc then 1 else 0

/-- Inductive invariant of the two-caller system: the lock holder matches the
caller in the critical section; the subnet count equals the completed
allocations; at most one allocation has happened; a caller at the allocate
statement saw the count that still stands; and a caller past the allocation
that decided not to allocate had seen a nonzero count. -/
def Inv (s : SysState) : Prop :=
  (inCS s.c0.pc = true → s.lockHolder = some 0)
  ∧ (inCS s.c1.pc = true → s.lockHolder = some 1)
  ∧ s.subnetCount.val = contrib s.c0 + contrib s.c1
  ∧ s.subnetCount.val ≤ 1
  ∧ (s.c0.pc = Pc.allocate → (s.c0.sawEmpty = true ↔ s.subnetCount.val = 0))
  ∧ (s.c1.pc = Pc.allocate → (s.c1.sawEmpty = true ↔ s.subnetCount.val = 0))
  ∧ (pastAlloc s.c0.pc = true → s.c0.sawEmpty = false →
      1 ≤ s.subnetCount.val)
  ∧ (pastAlloc s.c1.pc = true → s.c1.sawEmpty = false →
      1 ≤ s.subnetCount.val)

instance : DecidablePred Inv := fun s => by
  unfold Inv
  infer_instance

theorem inv_init : Inv initState := by decide

set_option maxRecDepth 10000 in
set_option maxHeartbeats 4000000 in
theorem inv_step_all : ∀ (lk : Option (Fin 2)) (cnt : Fin 3) (pc0 : Pc)
    (saw0 : Bool) (pc1 : Pc) (saw1 : Bool) (tid : Fin 2) (kind : StepKind),
    Inv ⟨lk, cnt, ⟨pc0, saw0⟩, ⟨pc1, saw1⟩⟩ →
      Inv (step ⟨lk, cnt, ⟨pc0, saw0⟩, ⟨pc1, saw1⟩⟩ ⟨tid, kind⟩) := by
  decide

theorem inv_step (s : SysState) (a : Act) (h : Inv s) : Inv (step s a) := by
  obtain ⟨lk, cnt, ⟨pc0, saw0⟩, ⟨pc1, saw1⟩⟩ := s
  obtain ⟨tid, kind⟩ := a
  exact inv_step_all lk cnt pc0 saw0 pc1 saw1 tid kind h

theorem inv_run (acts : List Act) (s : SysState) (h : Inv s) :
    Inv (run acts s) := by
  induction acts generalizing s with
  | nil => exact h
  | cons a acts ih => exact ih (step s a) (inv_step s a h)

set_option maxRecDepth 10000 in
theorem inv_finished_all : ∀ (lk : Option (Fin 2)) (cnt : Fin 3)
    (saw0 saw1 : Bool),
    Inv ⟨lk, cnt, ⟨Pc.finished, saw0⟩, ⟨Pc.finished, saw1⟩⟩ →
      cnt.val = 1 := by
  decide

theorem inv_finished (s : SysState) (h : Inv s)
    (h0 : s.c0.pc = Pc.finished) (h1 : s.c1.pc = Pc.finished) :
    s.subnetCount.val = 1 := by
  obtain ⟨lk, cnt, ⟨pc0, saw0⟩, ⟨pc1, saw1⟩⟩ := s
  simp only at h0 h1
  subst h0
  subst h1
  exact inv_finished_all lk cnt saw0 saw1 h


/-! ## Claim C9 -/

/-- C9 (confirmed): for every interleaving (schedule) of two concurrent
EndpointGroup-create calls targeting the same newly created BridgingDomain —
one that owns no subnet yet — in which both calls have run to completion,
exactly one subnet has been allocated in total: the per-BridgingDomain
advisory lock serializes the check-then-allocate critical sections, so the
first caller reads an empty subnet set and allocates while the second reads
the allocated set and does not. -/
theorem C9_concurrent_creates_single_allocation (acts : List Act)
    (h0 : (run acts initState).c0.pc = Pc.finished)
    (h1 : (run acts initState).c1.pc = Pc.finished) :
    (run acts initState).subnetCount.val = 1 :=
  inv_finished (run acts initState) (inv_run acts initState inv_init) h0 h1

/-- C9 witness: a concrete interleaving in which the second caller's acquire
is attempted (and blocked) while the first holds the lock. -/
theorem C9_concurrent_creates_single_allocation_witness :
    (run [⟨0, StepKind.lockAcquire⟩, ⟨1, StepKind.lockAcquire⟩,
        ⟨0, StepKind.readStep⟩, ⟨1, StepKind.lockAcquire⟩,
        ⟨0, StepKind.allocStep⟩, ⟨0, StepKind.releaseStep⟩,
        ⟨1, StepKind.lockAcquire⟩, ⟨1, StepKind.readStep⟩,
        ⟨1, StepKind.allocStep⟩, ⟨1, StepKind.releaseStep⟩]
      initState).subnetCount.val = 1 :=
  C9_concurrent_creates_single_allocation
    [⟨0, StepKind.lockAcquire⟩, ⟨1, StepKind.lockAcquire⟩,
      ⟨0, StepKind.readStep⟩, ⟨1, StepKind.lockAcquire⟩,
      ⟨0, StepKind.allocStep⟩, ⟨0, StepKind.releaseStep⟩,
      ⟨1, StepKind.lockAcquire⟩, ⟨1, StepKind.readStep⟩,
      ⟨1, StepKind.allocStep⟩, ⟨1, StepKind.releaseStep⟩]
    (by decide) (by decide)

end AimMapping
